import Mathlib

/-!
Verification development for the frida-go binding layer: a shallow embedding
of `src/frida/snapshot_options.go` (the Session operations, including
`DetachCtx`) and `src/unnamed/part_000` (the `ScriptOptions` and
`SnapshotOptions` builders).

The native instrumentation engine behind the cgo calls is an external
collaborator: it is modelled as a pure oracle (`Engine`) whose calls follow
the GLib convention of the wrapped C API — each `*_sync` call either returns
a usable handle with no `GError`, or a `NULL` handle with a `GError` set.
Go pointers that the binding may leave nil are `Option`; a Go nil-pointer
dereference is the `Exec.fault` outcome.  Native reference counts that the
binding manipulates (`g_object_unref` via `clean`) are carried explicitly on
the modelled objects.
-/

namespace FridaGo

/-- Opaque native session handle (`*C.FridaSession` held by `Session.s`). -/
abbrev SessionHandle := Nat

/-- Opaque native script handle (`*C.FridaScript`). -/
abbrev ScriptHandle := Nat

/-- Opaque native portal-membership handle (`*C.FridaPortalMembership`). -/
abbrev PortalHandle := Nat

/-- A native `GError`: the binding only forwards its message, so a string. -/
abbrev GErr := String

/-- Script runtime flavor: a C enum (`FridaScriptRuntime`), an integer. -/
abbrev ScriptRuntime := Nat

/-- Snapshot transport mode: a C enum (`FridaSnapshotTransport`), an integer. -/
abbrev SnapshotTransport := Nat

/-- Modelled from the spec: the error taxonomy of the binding layer, whose
`errors.go` is not under `src/`.  `contextCancelled` is the distinct
deadline-exceeded sentinel `ErrContextCancelled` returned by `DetachCtx`;
`native` wraps an engine-reported `GError` (what `handleGError` produces). -/
inductive FError
  | contextCancelled
  | native (e : GErr)
deriving DecidableEq

/-- Result of one native `*_sync` call, following the C contract: exactly one
of a usable return value (no error set) or a `GError` (`NULL` return). -/
inductive NativeRes (α : Type)
  | ok (a : α)
  | fail (e : GErr)
deriving DecidableEq

/-- Modelled from the spec: `handleGError` (repository code not under `src/`)
wraps an engine `GError` into a single Go error value and maps the absence of
a `GError` to a nil error (spec section 7: native errors are wrapped into one
error type, not silently swallowed). -/
def handleGError (e : Option GErr) : Option FError :=
  e.map FError.native

/-- A native `GBytes` object as the binding sees it: the byte payload plus
the number of references the owning `ScriptOptions` holds on it.  The Go-side
temporary reference created by `goBytesToGBytes` is released by the finalizer
installed right after creation, so only the reference owned by the options
object is tracked. -/
structure GBytesObj where
  data : List Nat
  refs : Nat
deriving DecidableEq

/-- State behind a `*C.FridaScriptOptions` handle, as driven by the setters in
`src/unnamed/part_000`.  A fresh `frida_script_options_new` object has no
name (read back as the empty string), no snapshot, and zero (default) enum
values. -/
structure ScriptOptions where
  name : String
  snapshot : Option GBytesObj
  runtime : ScriptRuntime
  transport : SnapshotTransport
deriving DecidableEq

/-- Embeds `NewScriptOptions`: allocates fresh options and sets the name. -/
def NewScriptOptions (name : String) : ScriptOptions :=
  { name := name, snapshot := none, runtime := 0, transport := 0 }

/-- Embeds `ScriptOptions.SetName` (`frida_script_options_set_name`). -/
def ScriptOptions.SetName (s : ScriptOptions) (name : String) : ScriptOptions :=
  { s with name := name }

/-- Embeds `ScriptOptions.SetSnapshot`: wraps the bytes in a `GBytes` and
stores it on the options; after the Go temporary is finalized, the options
own exactly one reference on it. -/
def ScriptOptions.SetSnapshot (s : ScriptOptions) (value : List Nat) : ScriptOptions :=
  { s with snapshot := some { data := value, refs := 1 } }

/-- Embeds `ScriptOptions.SetSnapshotTransport`.  The source declares the
parameter with type `SnapshotOptions`, yet its body casts the argument to the
`FridaSnapshotTransport` enum — as written the Go file does not type-check;
the doc comment and the cast make the transport enum the intended parameter,
and that is what is embedded here. -/
def ScriptOptions.SetSnapshotTransport (s : ScriptOptions) (tr : SnapshotTransport) : ScriptOptions :=
  { s with transport := tr }

/-- Embeds `ScriptOptions.SetRuntime` (`frida_script_options_set_runtime`). -/
def ScriptOptions.SetRuntime (s : ScriptOptions) (rt : ScriptRuntime) : ScriptOptions :=
  { s with runtime := rt }

/-- Embeds `ScriptOptions.GetName` (`frida_script_options_get_name`). -/
def ScriptOptions.GetName (s : ScriptOptions) : String :=
  s.name

/-- Modelled from the spec: `ScriptOptions.Name`, the name read-back that
`CreateScriptWithOptions` calls, is repository code not under `src/`; per the
spec, getters are read-back views consistent with the last setter call. -/
def ScriptOptions.Name (s : ScriptOptions) : String :=
  s.name

/-- Embeds `ScriptOptions.GetSnapshot`.  The source reads the `GBytes` the
options hold (`frida_script_options_get_snapshot`, a borrowing getter),
copies the bytes out, and then unrefs that `GBytes` (`clean(..,
unrefGObject)`) — releasing the reference the options own.  The returned pair
is (bytes handed to the caller, options state after the call). -/
def ScriptOptions.GetSnapshot (s : ScriptOptions) : List Nat × ScriptOptions :=
  match s.snapshot with
  | none => ([], s)
  | some g => (g.data, { s with snapshot := some { g with refs := g.refs - 1 } })

/-- Modelled from the spec: a runtime read-back getter for `ScriptOptions` is
not under `src/` (the spec asserts one in its round-trip sentence); per the
spec it is a read-back view of the last `SetRuntime`. -/
def ScriptOptions.GetRuntime (s : ScriptOptions) : ScriptRuntime :=
  s.runtime

/-- Embeds `ScriptOptions.GetSnapshotTransport`. -/
def ScriptOptions.GetSnapshotTransport (s : ScriptOptions) : SnapshotTransport :=
  s.transport

/-- Whether the options object still owns a live reference on its snapshot. -/
def ScriptOptions.ownsLiveSnapshot (s : ScriptOptions) : Bool :=
  match s.snapshot with
  | none => false
  | some g => decide (0 < g.refs)

/-- State behind a `*C.FridaSnapshotOptions` handle (immutable after
`NewSnapshotOptions`: the source provides only getters). -/
structure SnapshotOptions where
  warmupScript : String
  runtime : ScriptRuntime
deriving DecidableEq

/-- Embeds `NewSnapshotOptions`: sets the warmup script and the runtime. -/
def NewSnapshotOptions (warmupScript : String) (rt : ScriptRuntime) : SnapshotOptions :=
  { warmupScript := warmupScript, runtime := rt }

/-- Embeds `SnapshotOptions.GetWarmupScript`. -/
def SnapshotOptions.GetWarmupScript (s : SnapshotOptions) : String :=
  s.warmupScript

/-- Embeds `SnapshotOptions.GetRuntime`. -/
def SnapshotOptions.GetRuntime (s : SnapshotOptions) : ScriptRuntime :=
  s.runtime

/-- The Go `Script` wrapper: `&Script{sc: sc}` — the wrapper itself is always
a fresh non-nil pointer, but the native handle inside may be `NULL` (here
`none`) when the engine call failed. -/
structure Script where
  sc : Option ScriptHandle
deriving DecidableEq

/-- The Go `PortalMembership` wrapper (`&PortalMembership{mem}`). -/
structure PortalMembership where
  mem : Option PortalHandle
deriving DecidableEq

/-- Peer options: an opaque wrapper around a native handle; the binding only
dereferences it (`opts.opts`), so its contents are irrelevant here. -/
structure PeerOptions where
  opts : Unit
deriving DecidableEq

/-- Portal options: an opaque wrapper around a native handle; the binding
only dereferences it (`opts.opts`). -/
structure PortalOptions where
  opts : Unit
deriving DecidableEq

/-- The Go `Session` wrapper around a native session handle. -/
structure Session where
  s : SessionHandle
deriving DecidableEq

/-- The external native engine as a pure oracle: one field per `*_sync` call
the embedded operations make.  Purity makes two calls with identical
arguments agree, which is how the spec's "returns exactly the same result"
sentences are read. -/
structure Engine where
  createScript : SessionHandle → String → ScriptOptions → NativeRes ScriptHandle
  createScriptFromBytes : SessionHandle → List Nat → ScriptOptions → NativeRes ScriptHandle
  compileScript : SessionHandle → String → ScriptOptions → NativeRes (List Nat)
  snapshotScript : SessionHandle → String → SnapshotOptions → NativeRes (List Nat)
  setupPeerConnection : SessionHandle → PeerOptions → Option GErr
  joinPortal : SessionHandle → String → PortalOptions → NativeRes PortalHandle

/-- Outcome of running a binding operation that may hit a Go nil-pointer
dereference: `fault` is the runtime panic, `ok` a normal return. -/
inductive Exec (α : Type)
  | ok (a : α)
  | fault
deriving DecidableEq

/-- Packaging of a native script-creation result exactly as the source does:
`return &Script{sc: sc}, handleGError(err)` — the wrapper is built
unconditionally, so on failure the caller receives a non-nil `*Script`
holding a `NULL` native handle together with the non-nil error. -/
def packageScript (r : NativeRes ScriptHandle) : Option Script × Option FError :=
  match r with
  | .ok h => (some { sc := some h }, none)
  | .fail e => (some { sc := none }, some (FError.native e))

/-- Packaging of a native byte-returning result exactly as `CompileScript`
and `SnapshotScript` do: on error `return nil, handleGError(err)`, otherwise
`return getGBytes(..), nil`. -/
def packageBytes (r : NativeRes (List Nat)) : Option (List Nat) × Option FError :=
  match r with
  | .ok b => (some b, none)
  | .fail e => (none, some (FError.native e))

/-- Packaging of the native join-portal result exactly as the source does:
`return &PortalMembership{mem}, handleGError(err)`. -/
def packagePortal (r : NativeRes PortalHandle) : Option PortalMembership × Option FError :=
  match r with
  | .ok h => (some { mem := some h }, none)
  | .fail e => (some { mem := none }, some (FError.native e))

/-- The options `CreateScriptWithOptions` hands to the native create call:
the source substitutes `NewScriptOptions("frida-go")` for a nil argument and
then replaces an empty name with the fixed default `"frida-go"`. -/
def effectiveCreateOpts (opts : Option ScriptOptions) : ScriptOptions :=
  let o := opts.getD (NewScriptOptions "frida-go")
  if o.Name = "" then o.SetName "frida-go" else o

/-- Embeds `Session.CreateScriptWithOptions`: nil options are replaced by a
default, an empty name is replaced by `"frida-go"`, then
`frida_session_create_script_sync` runs and its result is packaged. -/
def Session.CreateScriptWithOptions (E : Engine) (sess : Session) (script : String)
    (opts : Option ScriptOptions) : Option Script × Option FError :=
  packageScript (E.createScript sess.s script (effectiveCreateOpts opts))

/-- Embeds `Session.CreateScript`: delegates with nil options. -/
def Session.CreateScript (E : Engine) (sess : Session) (script : String) :
    Option Script × Option FError :=
  Session.CreateScriptWithOptions E sess script none

/-- Embeds `Session.CreateScriptBytes`: nil options are replaced by
`NewScriptOptions("frida-go")`, then
`frida_session_create_script_from_bytes_sync` runs on the given options —
the source has no empty-name replacement on this path. -/
def Session.CreateScriptBytes (E : Engine) (sess : Session) (script : List Nat)
    (opts : Option ScriptOptions) : Option Script × Option FError :=
  let o := opts.getD (NewScriptOptions "frida-go")
  packageScript (E.createScriptFromBytes sess.s script o)

/-- The spec reading of `CreateScriptBytes` (claim C5): identical to
`CreateScriptWithOptions` except for the payload, i.e. nil options replaced
by a default and an empty name replaced by the fixed default before the
native create call. -/
def Session.CreateScriptBytesSpec (E : Engine) (sess : Session) (script : List Nat)
    (opts : Option ScriptOptions) : Option Script × Option FError :=
  packageScript (E.createScriptFromBytes sess.s script (effectiveCreateOpts opts))

/-- Embeds `Session.CreateScriptWithSnapshot`: builds
`NewScriptOptions("frida-go")`, sets the snapshot on it, and delegates to
`CreateScriptWithOptions`. -/
def Session.CreateScriptWithSnapshot (E : Engine) (sess : Session) (script : String)
    (snapshot : List Nat) : Option Script × Option FError :=
  let opts := (NewScriptOptions "frida-go").SetSnapshot snapshot
  Session.CreateScriptWithOptions E sess script (some opts)

/-- Embeds `Session.CompileScript`: nil options are replaced by the default
(no empty-name replacement), then `frida_session_compile_script_sync` runs
and its result is packaged as bytes-or-error. -/
def Session.CompileScript (E : Engine) (sess : Session) (script : String)
    (opts : Option ScriptOptions) : Option (List Nat) × Option FError :=
  let o := opts.getD (NewScriptOptions "frida-go")
  packageBytes (E.compileScript sess.s script o)

/-- Embeds `Session.SnapshotScript`: the source dereferences
`snapshotOpts.opts` with no nil check, so a nil options pointer faults;
otherwise `frida_session_snapshot_script_sync` runs. -/
def Session.SnapshotScript (E : Engine) (sess : Session) (embedScript : String)
    (snapshotOpts : Option SnapshotOptions) : Exec (Option (List Nat) × Option FError) :=
  match snapshotOpts with
  | none => Exec.fault
  | some o => Exec.ok (packageBytes (E.snapshotScript sess.s embedScript o))

/-- Embeds `Session.SetupPeerConnection`: dereferences `opts.opts` with no
nil check, so a nil options pointer faults. -/
def Session.SetupPeerConnection (E : Engine) (sess : Session)
    (opts : Option PeerOptions) : Exec (Option FError) :=
  match opts with
  | none => Exec.fault
  | some o => Exec.ok (handleGError (E.setupPeerConnection sess.s o))

/-- Embeds `Session.JoinPortal`: dereferences `opts.opts` with no nil check,
so a nil options pointer faults; otherwise the result is packaged as
`&PortalMembership{mem}, handleGError(err)`. -/
def Session.JoinPortal (E : Engine) (sess : Session) (address : String)
    (opts : Option PortalOptions) : Exec (Option PortalMembership × Option FError) :=
  match opts with
  | none => Exec.fault
  | some o => Exec.ok (packagePortal (E.joinPortal sess.s address o))

/-- Result of the one underlying `s.Detach(WithCancel(c))` call that
`DetachCtx` runs on its goroutine: nil error or a wrapped native error. -/
inductive DetachOutcome
  | ok
  | fail (e : GErr)
deriving DecidableEq

/-- Modelled from the spec: the `CancellationToken` (`Cancellable`, repository
code not under `src/`) as `DetachCtx` drives it — whether `Cancel` was
called and whether `Unref` (release) was called. -/
structure TokenState where
  cancelled : Bool
  released : Bool
deriving DecidableEq

/-- Embeds `Session.DetachCtx`.  The source starts a goroutine that runs
`s.Detach(WithCancel(c))`; on a non-nil error it sends the error on the
buffered channel `errC` and returns, and on a nil error it RECEIVES from the
channel `done` (`<-done`).  Nothing in the function ever sends on `done`, so
on success neither the goroutine nor the select loop can proceed via `done`.
The select loop races three cases: `ctx.Done()` (fires when and only when
the context deadline expires) runs `c.Cancel()` and returns
`ErrContextCancelled` without unrefing; `<-done` (never ready) would unref
and return nil; `<-errC` unrefs and returns the error.

Inputs: the underlying detach result, whether the context expires before the
underlying call completes, and whether the context ever expires.  Output:
`some (returned error, token state)` for a normal return, `none` when no
select case ever fires and the call blocks forever. -/
def DetachCtx (res : DetachOutcome) (ctxBeforeCompletion ctxEventuallyDone : Bool) :
    Option (Option FError × TokenState) :=
  match res with
  | .fail e =>
    if ctxEventuallyDone && ctxBeforeCompletion then
      some (some FError.contextCancelled, { cancelled := true, released := false })
    else
      some (some (FError.native e), { cancelled := false, released := true })
  | .ok =>
    if ctxEventuallyDone then
      some (some FError.contextCancelled, { cancelled := true, released := false })
    else
      none

/-- Mutual exclusivity of a (value, error) pair as the spec states it:
exactly one of a present value with nil error, or an absent (zero) value
with a non-nil error. -/
def exclusiveRes {α : Type} (v : Option α) (e : Option FError) : Bool :=
  (v.isSome && e.isNone) || (v.isNone && e.isSome)

/-- Exclusivity one level down for the script-returning operations: the
wrapper is always present, and its native handle is present exactly when the
error is nil. -/
def wrapperExclusive (r : Option Script × Option FError) : Bool :=
  match r with
  | (some v, none) => v.sc.isSome
  | (some v, some _) => v.sc.isNone
  | (none, _) => false

/-- Exclusivity one level down for `JoinPortal`. -/
def portalWrapperExclusive (r : Option PortalMembership × Option FError) : Bool :=
  match r with
  | (some v, none) => v.mem.isSome
  | (some v, some _) => v.mem.isNone
  | (none, _) => false

/-- Lifts a Boolean check under `Exec`: fault fails the check. -/
def Exec.okAnd {α : Type} (p : α → Bool) : Exec α → Bool
  | .ok a => p a
  | .fault => false

/-- A concrete engine on which every call fails with one `GError`. -/
def EFail : Engine where
  createScript := fun _ _ _ => NativeRes.fail "boom"
  createScriptFromBytes := fun _ _ _ => NativeRes.fail "boom"
  compileScript := fun _ _ _ => NativeRes.fail "boom"
  snapshotScript := fun _ _ _ => NativeRes.fail "boom"
  setupPeerConnection := fun _ _ => some "boom"
  joinPortal := fun _ _ _ => NativeRes.fail "boom"

/-- A concrete engine on which every call succeeds. -/
def EOk : Engine where
  createScript := fun _ _ _ => NativeRes.ok 7
  createScriptFromBytes := fun _ _ _ => NativeRes.ok 7
  compileScript := fun _ _ _ => NativeRes.ok [1, 2]
  snapshotScript := fun _ _ _ => NativeRes.ok [3]
  setupPeerConnection := fun _ _ => none
  joinPortal := fun _ _ _ => NativeRes.ok 9

/-- A concrete engine that rejects script creation when the options carry an
empty name and succeeds otherwise — it observes exactly the options state
the binding hands to the native create call. -/
def EName : Engine where
  createScript := fun _ _ o => if o.name = "" then NativeRes.fail "empty name" else NativeRes.ok 1
  createScriptFromBytes := fun _ _ o => if o.name = "" then NativeRes.fail "empty name" else NativeRes.ok 1
  compileScript := fun _ _ _ => NativeRes.ok []
  snapshotScript := fun _ _ _ => NativeRes.ok []
  setupPeerConnection := fun _ _ => none
  joinPortal := fun _ _ _ => NativeRes.ok 1

/-- Helper: a packaged bytes result is exactly one of (value, nil) or
(nil, error). -/
theorem packageBytes_exclusive (r : NativeRes (List Nat)) :
    exclusiveRes (packageBytes r).1 (packageBytes r).2 = true := by
  cases r <;> rfl

/-- Helper: a packaged script result always carries the wrapper, with the
native handle present exactly when the error is nil. -/
theorem packageScript_wrapperExclusive (r : NativeRes ScriptHandle) :
    wrapperExclusive (packageScript r) = true := by
  cases r <;> rfl

/-- Helper: a packaged portal result always carries the wrapper, with the
native handle present exactly when the error is nil. -/
theorem packagePortal_wrapperExclusive (r : NativeRes PortalHandle) :
    portalWrapperExclusive (packagePortal r) = true := by
  cases r <;> rfl

/-- Helper: the options `CreateScriptWithOptions` hands to the engine never
carry an empty name. -/
theorem effectiveCreateOpts_name_ne_empty (opts : Option ScriptOptions) :
    (effectiveCreateOpts opts).name ≠ "" := by
  cases opts with
  | none => decide
  | some o =>
    by_cases h : o.name = ""
    · simp [effectiveCreateOpts, ScriptOptions.Name, ScriptOptions.SetName, h]
    · simp [effectiveCreateOpts, ScriptOptions.Name, h]

/-- C1: after a successful underlying `Detach`, `DetachCtx` never returns a
nil error — nothing ever sends on the `done` channel (the goroutine only
receives from it), so the nil-returning select case can never fire: the call
blocks until the context expires (returning `ErrContextCancelled` with the
token cancelled and unreleased) or, with a never-expiring context, blocks
forever.  This contradicts the documented success path, so it is recorded as
a code bug. -/
theorem detachCtx_success_never_returns_nil :
    (∀ b1 b2 : Bool, (DetachCtx DetachOutcome.ok b1 b2).all (fun r => r.1.isSome) = true)
    ∧ DetachCtx DetachOutcome.ok false true
        = some (some FError.contextCancelled, { cancelled := true, released := false })
    ∧ DetachCtx DetachOutcome.ok false false = none := by
  refine ⟨by decide, rfl, rfl⟩

/-- C2 counterexample: on a failing native create call,
`CreateScriptWithOptions` returns a non-nil `*Script` wrapper AND a non-nil
error — both components populated, so the claimed mutual exclusivity fails
at this concrete input. -/
theorem createScriptWithOptions_failure_both_populated :
    (Session.CreateScriptWithOptions EFail ⟨0⟩ "x" none).1.isSome = true
    ∧ (Session.CreateScriptWithOptions EFail ⟨0⟩ "x" none).2.isSome = true
    ∧ exclusiveRes (Session.CreateScriptWithOptions EFail ⟨0⟩ "x" none).1
        (Session.CreateScriptWithOptions EFail ⟨0⟩ "x" none).2 = false := by
  refine ⟨by decide, by decide, by decide⟩

/-- C2 amended: `CompileScript` and `SnapshotScript` (with non-nil options)
return exactly one of (value, nil error) or (nil, error); the operations
that return wrapper structs (`CreateScript`, `CreateScriptWithOptions`,
`CreateScriptBytes`, `CreateScriptWithSnapshot`, `JoinPortal`) always return
a non-nil wrapper, and exclusivity holds one level down: the wrapper's
native handle is populated exactly when the error is nil. -/
theorem session_results_exclusivity_amended :
    ∀ (E : Engine) (sess : Session) (script addr : String) (bts : List Nat)
      (opts : Option ScriptOptions) (sopts : SnapshotOptions) (popts : PortalOptions),
      exclusiveRes (Session.CompileScript E sess script opts).1
          (Session.CompileScript E sess script opts).2 = true
      ∧ Exec.okAnd (fun r => exclusiveRes r.1 r.2)
          (Session.SnapshotScript E sess script (some sopts)) = true
      ∧ wrapperExclusive (Session.CreateScriptWithOptions E sess script opts) = true
      ∧ wrapperExclusive (Session.CreateScript E sess script) = true
      ∧ wrapperExclusive (Session.CreateScriptBytes E sess bts opts) = true
      ∧ wrapperExclusive (Session.CreateScriptWithSnapshot E sess script bts) = true
      ∧ Exec.okAnd portalWrapperExclusive (Session.JoinPortal E sess addr (some popts)) = true := by
  intro E sess script addr bts opts sopts popts
  exact ⟨packageBytes_exclusive _, packageBytes_exclusive _,
    packageScript_wrapperExclusive _, packageScript_wrapperExclusive _,
    packageScript_wrapperExclusive _, packageScript_wrapperExclusive _,
    packagePortal_wrapperExclusive _⟩

/-- C3 counterexample: when the context expires while the underlying detach
is in flight, `DetachCtx` returns `ErrContextCancelled` with the token
cancelled but NOT released — the `ctx.Done()` select case runs `c.Cancel()`
and returns without `c.Unref()`, contradicting the claimed release. -/
theorem detachCtx_deadline_token_not_released :
    DetachCtx DetachOutcome.ok true true
      = some (some FError.contextCancelled, { cancelled := true, released := false })
    ∧ (DetachCtx DetachOutcome.ok true true).all (fun r => r.2.released) = false := by
  exact ⟨rfl, rfl⟩

/-- C3 amended: on expiry of the context while the underlying detach is in
flight, `DetachCtx` cancels the token it created and returns the distinct
`ErrContextCancelled`, the token ending cancelled — but `DetachCtx` does not
`Unref` (release) the token on this path. -/
theorem detachCtx_deadline_cancels_without_release :
    ∀ res : DetachOutcome,
      DetachCtx res true true
        = some (some FError.contextCancelled, { cancelled := true, released := false }) := by
  intro res
  cases res <;> rfl

/-- C4: `CreateScriptWithOptions` calls the engine on `effectiveCreateOpts
opts`; a nil options argument is replaced by the synthesized default
`NewScriptOptions "frida-go"`, an empty name is replaced via `SetName
"frida-go"`, and the options' name is never empty at the moment of the
native create call. -/
theorem createScriptWithOptions_name_defaulting :
    ∀ (E : Engine) (sess : Session) (script : String) (opts : Option ScriptOptions),
      Session.CreateScriptWithOptions E sess script opts
        = packageScript (E.createScript sess.s script (effectiveCreateOpts opts))
      ∧ (effectiveCreateOpts opts).name ≠ ""
      ∧ effectiveCreateOpts none = NewScriptOptions "frida-go"
      ∧ (∀ o : ScriptOptions, effectiveCreateOpts (some o)
          = if o.name = "" then o.SetName "frida-go" else o) := by
  intro E sess script opts
  exact ⟨rfl, effectiveCreateOpts_name_ne_empty opts, rfl, fun o => rfl⟩

/-- C5 counterexample: on options whose name is empty, `CreateScriptBytes`
hands the empty name to the native create call (here: an engine that rejects
empty names), while the claimed behaviour — that of
`CreateScriptWithOptions`, `CreateScriptBytesSpec` — would substitute
`"frida-go"` first; the two results differ at this concrete input. -/
theorem createScriptBytes_empty_name_passed_through :
    Session.CreateScriptBytes EName ⟨0⟩ [] (some (NewScriptOptions ""))
      = (some { sc := none }, some (FError.native "empty name"))
    ∧ Session.CreateScriptBytesSpec EName ⟨0⟩ [] (some (NewScriptOptions ""))
      = (some { sc := some 1 }, none)
    ∧ Session.CreateScriptBytes EName ⟨0⟩ [] (some (NewScriptOptions ""))
      ≠ Session.CreateScriptBytesSpec EName ⟨0⟩ [] (some (NewScriptOptions "")) := by
  refine ⟨by decide, by decide, by decide⟩

/-- C5 amended: `CreateScriptBytes` replaces a nil options argument by the
synthesized default (agreeing with the `CreateScriptWithOptions` behaviour
there, and on every options object whose name is non-empty), but it passes
non-nil options to the native create call unchanged — it does not replace an
empty name. -/
theorem createScriptBytes_default_only_for_nil :
    ∀ (E : Engine) (sess : Session) (bts : List Nat),
      Session.CreateScriptBytes E sess bts none = Session.CreateScriptBytesSpec E sess bts none
      ∧ (∀ o : ScriptOptions, o.name ≠ "" →
          Session.CreateScriptBytes E sess bts (some o)
            = Session.CreateScriptBytesSpec E sess bts (some o))
      ∧ (∀ o : ScriptOptions, Session.CreateScriptBytes E sess bts (some o)
          = packageScript (E.createScriptFromBytes sess.s bts o)) := by
  intro E sess bts
  refine ⟨?_, ?_, fun o => rfl⟩
  · simp [Session.CreateScriptBytes, Session.CreateScriptBytesSpec, effectiveCreateOpts,
      NewScriptOptions, ScriptOptions.Name, ScriptOptions.SetName]
  · intro o h
    simp [Session.CreateScriptBytes, Session.CreateScriptBytesSpec, effectiveCreateOpts,
      ScriptOptions.Name, h]

/-- Witness for the amended C5 theorem at a concrete input: the concrete
always-succeeding engine, session handle 0, an empty payload and options
carrying the non-empty name "x" discharge its non-empty-name hypothesis. -/
theorem createScriptBytes_default_only_for_nil_witness :
    Session.CreateScriptBytes EOk ⟨0⟩ [] (some (NewScriptOptions "x"))
      = Session.CreateScriptBytesSpec EOk ⟨0⟩ [] (some (NewScriptOptions "x")) :=
  (createScriptBytes_default_only_for_nil EOk ⟨0⟩ []).2.1 (NewScriptOptions "x") (by decide)

/-- C6: the intended round-trips of `ScriptOptions` hold in the embedding:
`GetName` after `SetName`, the bytes of `GetSnapshot` after `SetSnapshot`,
`GetRuntime` after `SetRuntime`, and `GetSnapshotTransport` after
`SetSnapshotTransport` each return the value last set.  (Recorded as a code
bug because the source's `SetSnapshotTransport` declares its parameter with
type `SnapshotOptions` while casting it to the transport enum, so no
transport mode is a well-typed argument as written.) -/
theorem scriptOptions_roundtrip :
    ∀ (o : ScriptOptions) (n : String) (v : List Nat) (rt : ScriptRuntime)
      (tr : SnapshotTransport),
      (o.SetName n).GetName = n
      ∧ ((o.SetSnapshot v).GetSnapshot).1 = v
      ∧ (o.SetRuntime rt).GetRuntime = rt
      ∧ (o.SetSnapshotTransport tr).GetSnapshotTransport = tr := by
  intro o n v rt tr
  exact ⟨rfl, rfl, rfl, rfl⟩

/-- C7: `CreateScript` returns exactly the result of
`CreateScriptWithOptions` on a default-named options object. -/
theorem createScript_eq_default_options :
    ∀ (E : Engine) (sess : Session) (script : String),
      Session.CreateScript E sess script
        = Session.CreateScriptWithOptions E sess script (some (NewScriptOptions "frida-go")) := by
  intro E sess script
  rfl

/-- C8: `CreateScriptWithSnapshot` returns exactly the result of
`CreateScriptWithOptions` on a newly built, default-named options object
whose snapshot was set to the given bytes; moreover the options reaching
the native create call still carry that snapshot (one live reference on the
given bytes). -/
theorem createScriptWithSnapshot_eq_options_with_snapshot :
    ∀ (E : Engine) (sess : Session) (script : String) (snapshot : List Nat),
      Session.CreateScriptWithSnapshot E sess script snapshot
        = Session.CreateScriptWithOptions E sess script
            (some ((NewScriptOptions "frida-go").SetSnapshot snapshot))
      ∧ (effectiveCreateOpts (some ((NewScriptOptions "frida-go").SetSnapshot snapshot))).snapshot
          = some { data := snapshot, refs := 1 } := by
  intro E sess script snapshot
  exact ⟨rfl, rfl⟩

/-- C9: `GetSnapshot` is not a pure read: after `SetSnapshot` the options own
one live reference on the snapshot; one `GetSnapshot` call returns the bytes
byte-for-byte but unrefs that reference, leaving the options with a dead
(zero-reference) snapshot, so a second `GetSnapshot` call, or any later read
of the snapshot through these options, no longer operates on a live retained
reference. -/
theorem getSnapshot_releases_reference :
    ∀ (o : ScriptOptions) (v : List Nat),
      (o.SetSnapshot v).ownsLiveSnapshot = true
      ∧ ((o.SetSnapshot v).GetSnapshot).1 = v
      ∧ ((o.SetSnapshot v).GetSnapshot).2.snapshot = some { data := v, refs := 0 }
      ∧ ((o.SetSnapshot v).GetSnapshot).2.ownsLiveSnapshot = false := by
  intro o v
  exact ⟨rfl, rfl, rfl, rfl⟩

/-- C10: `SnapshotScript`, `SetupPeerConnection` and `JoinPortal` dereference
their options argument unconditionally, so a nil options pointer faults
(nil-pointer dereference) instead of returning an error; by contrast
`CreateScriptWithOptions`, `CreateScriptBytes` and `CompileScript` replace a
nil options argument by the synthesized default and proceed normally. -/
theorem nil_options_fault_vs_default :
    ∀ (E : Engine) (sess : Session) (script addr : String) (bts : List Nat),
      Session.SnapshotScript E sess script none = Exec.fault
      ∧ Session.SetupPeerConnection E sess none = Exec.fault
      ∧ Session.JoinPortal E sess addr none = Exec.fault
      ∧ Session.CreateScriptWithOptions E sess script none
          = Session.CreateScriptWithOptions E sess script (some (NewScriptOptions "frida-go"))
      ∧ Session.CreateScriptBytes E sess bts none
          = Session.CreateScriptBytes E sess bts (some (NewScriptOptions "frida-go"))
      ∧ Session.CompileScript E sess script none
          = Session.CompileScript E sess script (some (NewScriptOptions "frida-go")) := by
  intro E sess script addr bts
  exact ⟨rfl, rfl, rfl, rfl, rfl, rfl⟩

end FridaGo
